import Mathlib

/-!
Shallow embedding of the CosmoCLI voice-assistant client (marchese29/CosmoCLI).

Sources embedded:
* `src/bedrock/model.py` — the wire event models and the inbound visitor.
* `src/bedrock/stream.py` — the session protocol (bootstrap, inbound dispatch
  loop, tool execution, close sequence).
* `src/audio.py` — the audio duplexer (capture suppression, playback queue,
  deferred suppression-clear timer).
* `src/util.py` — the tool registry (`SonicTools`).

Conventions: asynchronous code is modelled either as pure functions returning
the list of outbound events it sends (where the code is sequential) or as a
labelled step relation over an explicit state (where interleavings matter).
Python exceptions are modelled with `Except`; a caught-and-logged exception is
a normal return value.  The transport itself is out of scope and modelled as
reliable (its failures are modelled explicitly where a claim is about them).
-/

namespace Cosmo

/-- Content type, `Literal['AUDIO', 'TEXT', 'TOOL']` in `model.py`. -/
inductive CType
  | AUDIO_
  | TEXT
  | TOOL
deriving DecidableEq, Repr

/-- Content role. Outbound roles are `USER/ASSISTANT/SYSTEM/TOOL`; the inbound
`ContentStartEvent` restricts to `USER/ASSISTANT/TOOL` (`model.py`). -/
inductive CRole
  | USER
  | ASSISTANT
  | SYSTEM
  | TOOL
deriving DecidableEq, Repr

/-- Stop reason carried by inbound `contentEnd` (`model.py`). -/
inductive StopReason
  | PARTIAL_TURN
  | END_TURN
  | INTERRUPTED
  | TOOL_USE
deriving DecidableEq, Repr

/-- `InferenceConfiguration` from `model.py` (defaults 1024 / 0.9 / 0.7). -/
structure InferenceConfiguration where
  max_tokens : Nat := 1024
  top_p : ℚ := 9 / 10
  temperature : ℚ := 7 / 10
deriving DecidableEq, Repr

/-- `AudioInputConfiguration` from `model.py` (all fields have fixed defaults). -/
structure AudioInputConfiguration where
  media_type : String := "audio/lpcm"
  sample_rate_hertz : Nat := 16000
  sample_size_bits : Nat := 16
  channel_count : Nat := 1
  audio_type : String := "SPEECH"
  encoding : String := "base64"
deriving DecidableEq, Repr

/-- `TextInputConfiguration` from `model.py`. -/
structure TextInputConfiguration where
  media_type : String := "text/plain"
deriving DecidableEq, Repr

/-- `ToolResultInputConfiguration` from `model.py`. -/
structure ToolResultInputConfiguration where
  tool_use_id : String
  type : String := "TEXT"
  text_input_configuration : TextInputConfiguration := ⟨"text/plain"⟩
deriving DecidableEq, Repr

/-- `AudioOutputConfiguration` from `model.py` (24 kHz, 16-bit, mono). -/
structure AudioOutputConfiguration where
  media_type : String := "audio/lpcm"
  sample_rate_hertz : Nat := 24000
  sample_size_bits : Nat := 16
  channel_count : Nat := 1
  voice_id : String := "matthew"
  encoding : String := "base64"
  audio_type : String := "SPEECH"
deriving DecidableEq, Repr

/-- `TextOutputConfiguration` from `model.py`. -/
structure TextOutputConfiguration where
  media_type : String := "text/plain"
deriving DecidableEq, Repr

/-- `ToolUseOutputConfiguration` from `model.py`. -/
structure ToolUseOutputConfiguration where
  media_type : String := "application/json"
deriving DecidableEq, Repr

/-- `InputSchema` from `model.py`; the call site in `util.py` passes the schema
as a `json.dumps` string, modelled as the raw string. -/
structure InputSchema where
  json_schema : String
deriving DecidableEq, Repr

/-- Modelled from the spec: `toolConfiguration.tools:[...name,description,inputSchema...]`
(spec section 6).  `util.py` constructs `ToolSpec(tool_spec=ToolSpecPayload(...))` but the
`ToolSpecPayload` class itself is absent from the repository's `model.py`. -/
structure ToolSpecPayload where
  name : String
  description : String
  input_schema : InputSchema
deriving DecidableEq, Repr

/-- `ToolSpec` as used by `util.py` (wraps a `ToolSpecPayload`). -/
structure ToolSpec where
  tool_spec : ToolSpecPayload
deriving DecidableEq, Repr

/-- `ToolConfiguration` from `model.py`. -/
structure ToolConfiguration where
  tools : List ToolSpec
deriving DecidableEq, Repr

/-- `SessionStartPayload` from `model.py`. -/
structure SessionStartPayload where
  inference_configuration : InferenceConfiguration
deriving DecidableEq, Repr

/-- `ContentStartPayload` from `model.py`: at most one of the three optional
configurations is populated, depending on `type`. -/
structure ContentStartPayload where
  prompt_name : String
  content_name : String
  type : CType
  interactive : Bool
  role : CRole
  audio_input_configuration : Option AudioInputConfiguration := none
  text_input_configuration : Option TextInputConfiguration := none
  tool_result_input_configuration : Option ToolResultInputConfiguration := none
deriving DecidableEq, Repr

/-- `ContentEndPayload` from `model.py`. -/
structure ContentEndPayload where
  prompt_name : String
  content_name : String
deriving DecidableEq, Repr

/-- Marker for a base64-encoded byte payload: `base64.b64encode(data)` applied
to the raw captured bytes (`stream.py`, `_process_user_incoming`).  The encoding
itself is external library code; the constructor records its input. -/
inductive B64Blob
  | ofBytes (data : List Nat)
deriving DecidableEq, Repr

/-- `AudioInputPayload` from `model.py`. -/
structure AudioInputPayload where
  prompt_name : String
  content_name : String
  content : B64Blob
deriving DecidableEq, Repr

/-- `TextInputPayload` from `model.py`. -/
structure TextInputPayload where
  prompt_name : String
  content_name : String
  content : String
deriving DecidableEq, Repr

/-- `PromptStartPayload` from `model.py`. -/
structure PromptStartPayload where
  prompt_name : String
  text_output_configuration : TextOutputConfiguration
  audio_output_configuration : AudioOutputConfiguration
  tool_use_output_configuration : ToolUseOutputConfiguration
  tool_configuration : ToolConfiguration
deriving DecidableEq, Repr

/-- `PromptEndPayload` from `model.py`. -/
structure PromptEndPayload where
  prompt_name : String
deriving DecidableEq, Repr

/-- The JSON value `json.dumps(\x7b'content': s\x7d)` built by
`_send_tool_result` in `stream.py`; the constructor records the wrapped string. -/
inductive ToolResultJson
  | contentWrap (s : String)
deriving DecidableEq, Repr

/-- Modelled from the spec: `toolResult\x7bpromptName, contentName, content:jsonString\x7d`
(spec section 6).  `stream.py` constructs `ToolResult(tool_result=ToolResultPayload(...))`
with these three fields, but the `ToolResultPayload` class is absent from the
repository's `model.py` (whose flat `ToolResult` is an older revision). -/
structure ToolResultPayload where
  prompt_name : String
  content_name : String
  content : ToolResultJson
deriving DecidableEq, Repr

/-- The outbound wire events (`model.py` request classes, one per
`_send_event` call site in `stream.py`). -/
inductive OutEvent
  | sessionStart (p : SessionStartPayload)
  | promptStart (p : PromptStartPayload)
  | contentStart (p : ContentStartPayload)
  | textInput (p : TextInputPayload)
  | audioInput (p : AudioInputPayload)
  | toolResult (p : ToolResultPayload)
  | contentEnd (p : ContentEndPayload)
  | promptEnd (p : PromptEndPayload)
  | sessionEnd
deriving DecidableEq, Repr

/-- The tag (event kind) of an outbound event. -/
inductive OutTag
  | sessionStartT
  | promptStartT
  | contentStartT
  | textInputT
  | audioInputT
  | toolResultT
  | contentEndT
  | promptEndT
  | sessionEndT
deriving DecidableEq, Repr

/-- Tag of an outbound event. -/
def tagOf : OutEvent → OutTag
  | .sessionStart _ => .sessionStartT
  | .promptStart _ => .promptStartT
  | .contentStart _ => .contentStartT
  | .textInput _ => .textInputT
  | .audioInput _ => .audioInputT
  | .toolResult _ => .toolResultT
  | .contentEnd _ => .contentEndT
  | .promptEnd _ => .promptEndT
  | .sessionEnd => .sessionEndT

/-- The per-session identity of a `BedrockStreamManager` (`stream.py`
constructor): generated names are opaque distinct tokens (`uuid.uuid4()`),
plus the system prompt, the configured voice and the registered tool catalog. -/
structure SessionCfg where
  system_prompt : String
  voice_name : String
  prompt_name : String
  content_name : String
  audio_content_name : String
  tools : List ToolSpec
deriving DecidableEq, Repr

/-- The five events sent by `BedrockStreamManager.initialize` itself, in
program order (`stream.py`, the five `_send_event` calls before the tasks are
spawned). -/
def initializeEvents (m : SessionCfg) : List OutEvent :=
  [ .sessionStart ⟨{}⟩,
    .promptStart ⟨m.prompt_name, {}, { voice_id := m.voice_name }, {}, ⟨m.tools⟩⟩,
    .contentStart
      { prompt_name := m.prompt_name
        content_name := m.content_name
        type := .TEXT
        role := .SYSTEM
        interactive := true
        text_input_configuration := some {} },
    .textInput ⟨m.prompt_name, m.content_name, m.system_prompt⟩,
    .contentEnd ⟨m.prompt_name, m.content_name⟩ ]

/-- The events sent by `_process_user_incoming` (`stream.py`): first the
`ContentStart` opening the USER AUDIO content, then one `AudioInput` per chunk
taken from the capture queue, in order.  The loop runs until cancelled; a run
is modelled by the finite list of chunks it forwarded. -/
def processUserIncomingEvents (m : SessionCfg) (chunks : List (List Nat)) : List OutEvent :=
  .contentStart
    { prompt_name := m.prompt_name
      content_name := m.audio_content_name
      type := .AUDIO_
      interactive := true
      role := .USER
      audio_input_configuration := some {} }
  :: chunks.map (fun d => .audioInput ⟨m.prompt_name, m.audio_content_name, .ofBytes d⟩)

/-- The outbound bootstrap-and-audio stream of a session: what `initialize`
sends followed by what the audio-forwarding task sends. -/
def sessionOutboundEvents (m : SessionCfg) (chunks : List (List Nat)) : List OutEvent :=
  initializeEvents m ++ processUserIncomingEvents m chunks

/-! ## Inbound events and the visitor (`model.py`) -/

/-- `CompletionStartEvent` from `model.py` (base `CompletionEvent` fields
flattened in). -/
structure CompletionStartEvent where
  session_id : String
  prompt_name : String
  completion_id : String
deriving DecidableEq, Repr

/-- `UsageEvent` from `model.py` (the optional `details` dict is telemetry
payload, modelled as an opaque optional string). -/
structure UsageEvent where
  session_id : String
  prompt_name : String
  completion_id : String
  details : Option String := none
  total_input_tokens : Int
  total_output_tokens : Int
  total_tokens : Int
deriving DecidableEq, Repr

/-- `ContentStartEvent` from `model.py` (the `additional_model_fields`
speculative/final marker as an optional string literal). -/
structure ContentStartEvent where
  session_id : String
  prompt_name : String
  completion_id : String
  additional_model_fields : Option String := none
  content_id : String
  type : CType
  role : CRole
  text_output_configuration : Option TextOutputConfiguration := none
  tool_use_output_configuration : Option ToolUseOutputConfiguration := none
  audio_output_configuration : Option AudioOutputConfiguration := none
deriving DecidableEq, Repr

/-- `TextOutputEvent` from `model.py`. -/
structure TextOutputEvent where
  session_id : String
  prompt_name : String
  completion_id : String
  content_id : String
  content : String
deriving DecidableEq, Repr

/-- `ToolUseEvent` from `model.py`.  Its `content` is the argument payload
(opaque JSON text; the repository's `model.py` types it as a dict while
`stream.py` stores and forwards it opaquely — modelled as a string). -/
structure ToolUseEvent where
  session_id : String
  prompt_name : String
  completion_id : String
  content_id : String
  content : String
  tool_name : String
  tool_use_id : String
deriving DecidableEq, Repr

/-- `AudioOutputEvent` from `model.py` (`content` is base64 text). -/
structure AudioOutputEvent where
  session_id : String
  prompt_name : String
  completion_id : String
  content_id : String
  content : String
deriving DecidableEq, Repr

/-- `ContentEndEvent` from `model.py`. -/
structure ContentEndEvent where
  session_id : String
  prompt_name : String
  completion_id : String
  content_id : String
  stop_reason : StopReason
  type : CType
deriving DecidableEq, Repr

/-- `CompletionEndEvent` from `model.py`. -/
structure CompletionEndEvent where
  session_id : String
  prompt_name : String
  completion_id : String
  stop_reason : StopReason
deriving DecidableEq, Repr

/-- `BidirectionalStreamEvent` from `model.py`: a record of eight optional
sub-events, at most one of which is populated on a well-formed wire message. -/
structure BStreamEvent where
  completion_start : Option CompletionStartEvent := none
  usage_event : Option UsageEvent := none
  content_start : Option ContentStartEvent := none
  text_output : Option TextOutputEvent := none
  tool_use : Option ToolUseEvent := none
  audio_output : Option AudioOutputEvent := none
  content_end : Option ContentEndEvent := none
  completion_end : Option CompletionEndEvent := none
deriving DecidableEq, Repr

/-- One observable action of `BidirectionalStreamEvent.visit`: a call to one of
the eight `StreamEventHandler` callbacks, or the default log-and-ignore arm
(`print('Unknown event received')`). -/
inductive VAct
  | onCompletionStart (e : CompletionStartEvent)
  | onUsage (e : UsageEvent)
  | onContentStart (e : ContentStartEvent)
  | onTextOutput (e : TextOutputEvent)
  | onToolUse (e : ToolUseEvent)
  | onAudioOutput (e : AudioOutputEvent)
  | onContentEnd (e : ContentEndEvent)
  | onCompletionEnd (e : CompletionEndEvent)
  | unknownLogged
deriving DecidableEq, Repr

/-- The `if usage_event / elif content_start / ... / else` chain at the end of
`visit` in `model.py`: exactly one arm executes. -/
def visitChain (e : BStreamEvent) : VAct :=
  match e.usage_event with
  | some ev => .onUsage ev
  | none =>
    match e.content_start with
    | some ev => .onContentStart ev
    | none =>
      match e.text_output with
      | some ev => .onTextOutput ev
      | none =>
        match e.tool_use with
        | some ev => .onToolUse ev
        | none =>
          match e.audio_output with
          | some ev => .onAudioOutput ev
          | none =>
            match e.content_end with
            | some ev => .onContentEnd ev
            | none =>
              match e.completion_end with
              | some ev => .onCompletionEnd ev
              | none => .unknownLogged

/-- `BidirectionalStreamEvent.visit` from `model.py`, as the list of handler
calls it performs in order.  Faithful to the source: the `completion_start`
check is a standalone `if`, and is followed by a separate
`if usage_event / elif ... / else` chain, so the two parts contribute
independently. -/
def visit (e : BStreamEvent) : List VAct :=
  (match e.completion_start with
   | some ev => [VAct.onCompletionStart ev]
   | none => []) ++ [visitChain e]

/-! ## The inbound dispatch loop (`stream.py`, `_process_br_incoming`) -/

/-- Outcome of decoding one received chunk's bytes, covering the code paths in
`_process_br_incoming`: `json.loads` failure (or undecodable UTF-8), a JSON
object without an `event` key, a pydantic validation failure constructing
`BidirectionalStreamEvent`, or a successfully decoded event. -/
inductive Decoded
  | notJson
  | noEventKey
  | badEvent
  | ok (e : BStreamEvent)
deriving DecidableEq, Repr

/-- One item produced by `receive()` on the inbound stream: a `None` result, an
output chunk whose `bytes_` is `None`, an output chunk with a byte payload, or
an output of another type (the `case _` arm). -/
inductive RecvItem
  | noneResult
  | chunkNoBytes
  | chunk (d : Decoded)
  | otherOutput
deriving DecidableEq, Repr

/-- How the dispatch loop ended.  Both ends return normally to the caller: the
loop body is wrapped in `try/except CancelledError: pass / except Exception:
traceback.print_exc()` at function scope. -/
inductive LoopEnd
  | cancelled
  | errorCaught
deriving DecidableEq, Repr

/-- `_process_br_incoming` from `stream.py`, over the finite list of items the
stream yields before the task is cancelled: returns the handler calls made (in
order) and how the loop ended.  The `try` wraps the whole `while True`, so an
exception raised while decoding (non-JSON bytes, or a pydantic validation
error) leaves the loop; it is caught and logged at function scope, not
re-raised.  `None` results, chunks without bytes, JSON without an `event` key
and unrecognized output types are skipped by `continue` inside the loop. -/
def processBrIncoming : List RecvItem → List VAct × LoopEnd
  | [] => ([], .cancelled)
  | .noneResult :: rest => processBrIncoming rest
  | .chunkNoBytes :: rest => processBrIncoming rest
  | .otherOutput :: rest => processBrIncoming rest
  | .chunk .notJson :: _ => ([], .errorCaught)
  | .chunk .badEvent :: _ => ([], .errorCaught)
  | .chunk .noEventKey :: rest => processBrIncoming rest
  | .chunk (.ok e) :: rest =>
    let r := processBrIncoming rest
    (visit e ++ r.1, r.2)

/-! ## Tool registry and tool execution (`util.py`, `stream.py`) -/

/-- A Python exception value as observed by `_execute_tool`: the `KeyError`
raised by `SonicTools.invoke_agent` for an unregistered name, or any exception
raised by the tool body itself. -/
inductive PyErr
  | keyError (msg : String)
  | raised (msg : String)
deriving DecidableEq, Repr

/-- Python `str()` of such an exception: `str(KeyError(m))` is the `repr` of
the argument, i.e. the message in single quotes; other exceptions render their
message. -/
def pyStr : PyErr → String
  | .keyError msg => "\x27" ++ msg ++ "\x27"
  | .raised msg => msg

/-- A registered tool body: takes the prompt, returns its text or raises. -/
def PromptTool : Type := String → Except String String

/-- `SonicTools.invoke_agent` from `util.py`: looks the name up in the
registry (name to (description, body)); absent names raise
`KeyError(No agent tool named "name" was registered)`. -/
def invoke_agent (agents : List (String × (Option String × PromptTool)))
    (name : String) (prompt : String) : Except PyErr String :=
  match agents.lookup name with
  | none => .error (.keyError ("No agent tool named \"" ++ name ++ "\" was registered"))
  | some (_, f) =>
    match f prompt with
    | .ok r => .ok r
    | .error m => .error (.raised m)

/-- `_send_tool_result` from `stream.py`: the three-part result sequence —
`ContentStart` with a `ToolResultInputConfiguration` referencing the original
`tool_use_id`, then `ToolResult` wrapping the content as
`json.dumps(\x7b'content': content\x7d)`, then `ContentEnd` — all three on the
same `content_name`. -/
def send_tool_result (pn tool_use_id content content_name : String) : List OutEvent :=
  [ .contentStart
      { prompt_name := pn
        content_name := content_name
        interactive := false
        type := .TOOL
        role := .TOOL
        tool_result_input_configuration := some { tool_use_id := tool_use_id } },
    .toolResult ⟨pn, content_name, .contentWrap content⟩,
    .contentEnd ⟨pn, content_name⟩ ]

/-- `_execute_tool` from `stream.py`, as the outbound events the tool task
sends: on success, the result triple; on any exception (including the
`KeyError` for an unregistered tool), the same triple carrying
`Error executing tool "name": str(e)`.  The transport is modelled as reliable
here: a failure while sending the error triple is logged and swallowed by the
inner `except` in the source. -/
def execute_tool (agents : List (String × (Option String × PromptTool)))
    (pn tool_name tool_use_id tool_content content_name : String) : List OutEvent :=
  match invoke_agent agents tool_name tool_content with
  | .ok result => send_tool_result pn tool_use_id result content_name
  | .error e =>
    send_tool_result pn tool_use_id
      ("Error executing tool \"" ++ tool_name ++ "\": " ++ pyStr e) content_name

/-! ## The pending-tool-invocation slot (`stream.py` handlers) -/

/-- The tool-related mutable state of `BedrockStreamManager`: the pending
invocation slot (`_tool_name`, `_tool_use_id`, `_tool_use_content`) and the
in-flight task map `_tool_tasks` (content name to the invocation arguments the
spawned task was given). -/
structure MgrToolState where
  tool_name : String
  tool_use_id : String
  tool_use_content : String
  tool_tasks : List (String × (String × String × String))
deriving DecidableEq, Repr

/-- `on_tool_use` from `stream.py`: overwrites the pending slot with the
event's tool name, invocation id and argument payload. -/
def on_tool_use (s : MgrToolState) (e : ToolUseEvent) : MgrToolState :=
  { s with
    tool_use_id := e.tool_use_id
    tool_name := e.tool_name
    tool_use_content := e.content }

/-- `on_content_end` from `stream.py`: when the ending content's type is
`TOOL`, generates a fresh content name, spawns `_execute_tool` with the values
currently in the pending slot, and records the task under the fresh name.
The slot fields themselves are not modified. -/
def on_content_end (s : MgrToolState) (e : ContentEndEvent) (fresh : String) : MgrToolState :=
  if e.type = CType.TOOL then
    { s with
      tool_tasks :=
        s.tool_tasks ++ [(fresh, (s.tool_name, s.tool_use_id, s.tool_use_content))] }
  else s

/-! ## The audio duplexer (`audio.py`)

`AudioInterface` is modelled as a labelled-transition system.  A state holds
the playback queue `_output_q`, the `_is_playing_output` flag, the
`_current_timer_task` slot, the set of timer tasks that have been created and
neither cancelled nor fired, and the frames forwarded to the protocol's input
handler.  Steps: `speak` (a chunk is enqueued), `capture` (the hardware
callback delivers a frame and the scheduled `_handle_input` coroutine runs on
the loop), a playback iteration of `_play_output_audio` (dequeue, cancel the
pending timer, raise the flag, write the chunk, schedule a new timer), and a
timer firing (`_clear_flag_after_playback` runs to completion).  The awaits
inside the chunk-writing loop are abstracted into the playback step; the other
steps interleave freely between steps, which covers every ordering the claims
are about. -/

/-- Audio constants from `audio.py`. -/
def INPUT_SAMPLE_RATE : Nat := 16000

/-- Output sample rate, Hz (`audio.py`). -/
def OUTPUT_SAMPLE_RATE : Nat := 24000

/-- Channel count (`audio.py`). -/
def CHANNELS : Nat := 1

/-- Frames per buffer (`audio.py`). -/
def CHUNK_SIZE : Nat := 1024

/-- A scheduled `_clear_flag_after_playback` task: its identity and the
duration it will sleep before running its body. -/
structure TimerHandle where
  id : Nat
  duration : ℚ
deriving DecidableEq, Repr

/-- State of an `AudioInterface`. -/
structure AudioState where
  outputQ : List (List Nat)
  isPlayingOutput : Bool
  currentTimer : Option TimerHandle
  liveTimers : List Nat
  nextTimerId : Nat
  forwarded : List Nat
deriving DecidableEq, Repr

/-- The state of a freshly constructed `AudioInterface`. -/
def initAudioState : AudioState :=
  { outputQ := []
    isPlayingOutput := false
    currentTimer := none
    liveTimers := []
    nextTimerId := 0
    forwarded := [] }

/-- `speak` from `audio.py`: puts the chunk on the playback queue. -/
def speakFn (s : AudioState) (c : List Nat) : AudioState :=
  { s with outputQ := s.outputQ ++ [c] }

/-- `_input_callback` / `_handle_input` from `audio.py`: the callback hands the
frame into the event loop, where the coroutine checks `_is_playing_output` and
either drops the frame (no queueing, no forwarding) or awaits the input
handler with it. -/
def input_callback (s : AudioState) (f : Nat) : AudioState :=
  if s.isPlayingOutput then s else { s with forwarded := s.forwarded ++ [f] }

/-- Duration computation from `_play_output_audio` in `audio.py`:
`len(audio_data) / (OUTPUT_SAMPLE_RATE * CHANNELS * 2)` seconds. -/
def duration_seconds (c : List Nat) : ℚ :=
  (c.length : ℚ) / ((OUTPUT_SAMPLE_RATE : ℚ) * (CHANNELS : ℚ) * 2)

/-- One iteration of `_play_output_audio` from `audio.py`, given that the queue
front is `c` (so `rest` remains): cancel the current timer task if it is not
done, set `_is_playing_output`, write the chunk (abstracted), and schedule a
fresh `_clear_flag_after_playback(duration_seconds c)` task, storing it in the
single `_current_timer_task` slot. -/
def play_next (s : AudioState) (c : List Nat) (rest : List (List Nat)) : AudioState :=
  { s with
    outputQ := rest
    isPlayingOutput := true
    liveTimers :=
      (match s.currentTimer with
       | some tm => s.liveTimers.erase tm.id
       | none => s.liveTimers) ++ [s.nextTimerId]
    currentTimer := some ⟨s.nextTimerId, duration_seconds c⟩
    nextTimerId := s.nextTimerId + 1 }

/-- `_clear_flag_after_playback` from `audio.py` running to completion (the
task with id `t` fires): the task finishes (leaves the live set) and clears
`_is_playing_output` only if the playback queue is empty at that moment. -/
def fire_timer (s : AudioState) (t : Nat) : AudioState :=
  { s with
    liveTimers := s.liveTimers.erase t
    isPlayingOutput := if s.outputQ.isEmpty then false else s.isPlayingOutput }

/-- The interleaving semantics of `AudioInterface`: any of the four activities
may take the next step. -/
inductive AStep : AudioState → AudioState → Prop
  | speak (s : AudioState) (c : List Nat) : AStep s (speakFn s c)
  | capture (s : AudioState) (f : Nat) : AStep s (input_callback s f)
  | playNext (s : AudioState) (c : List Nat) (rest : List (List Nat))
      (h : s.outputQ = c :: rest) : AStep s (play_next s c rest)
  | timerFire (s : AudioState) (tm : TimerHandle)
      (hc : s.currentTimer = some tm) (hl : tm.id ∈ s.liveTimers) :
      AStep s (fire_timer s tm.id)

/-- Reachability from the freshly constructed interface. -/
def AReachable (s : AudioState) : Prop :=
  Relation.ReflTransGen AStep initAudioState s

/-! ## Close (`stream.py`, `close` / `audio.py`, `stop`) -/

/-- The observable cleanup operations of `BedrockStreamManager.close`. -/
inductive CStep
  | cancelBrTask
  | cancelUserTask
  | audioStop
  | sendAudioContentEnd
  | sendPromptEnd
  | sendSessionEnd
  | streamClose
deriving DecidableEq, Repr

/-- The resource references of a `BedrockStreamManager` that `close` guards on
and resets: `_br_incoming_task`, `_user_incoming_task`, `_audio`,
`_br_stream` (`true` = present, `false` = `None`). -/
structure MgrRefs where
  brIncomingTask : Bool
  userIncomingTask : Bool
  audio : Bool
  brStream : Bool
deriving DecidableEq, Repr

/-- The environment of a `close()` run.  `timerPending` records whether a
deferred suppression-clear task (`_current_timer_task`) exists and is not done
when `close` runs — in that case `AudioInterface.stop` does
`self.current_timer_task.cancel()` and then awaits the cancelled task with no
guard, so the await re-raises `asyncio.CancelledError`.  On the Python this
code requires (3.12+, it uses `typing.override`), `CancelledError` derives
from `BaseException`, so it is NOT caught by the `except Exception` around
`await self.audio.stop()` in `close` and aborts `close` itself.  The
remaining flags mark cleanup operations that raise an ordinary `Exception`
(e.g. a device release failure inside `stop`, a transport failure in a send,
or a failure closing the stream). -/
structure CloseEnv where
  timerPending : Bool
  audioStopFails : Bool
  sendContentEndFails : Bool
  sendPromptEndFails : Bool
  sendSessionEndFails : Bool
  streamCloseFails : Bool
deriving DecidableEq, Repr

/-- Result of a `close()` call: the operations attempted in order, whether an
exception escaped `close` itself, and the resource references afterwards. -/
structure CloseOutcome where
  attempted : List CStep
  raised : Bool
  refs : MgrRefs
deriving DecidableEq, Repr

/-- All references `None`. -/
def noRefs : MgrRefs := ⟨false, false, false, false⟩

/-- `BedrockStreamManager.close` from `stream.py`.  Task cancellation uses
`gather(..., return_exceptions=True)` and never raises.  `_audio.stop()` is
wrapped in `try/except Exception`, which swallows ordinary `Exception`
failures (logged, cleanup continues) — but NOT the `CancelledError`
(a `BaseException`) that `stop` re-raises when a deferred suppression-clear
timer task is pending: in that case `close` aborts right after the audio-stop
step, before any closing send and before the reference reset.
`_br_stream.close()` is likewise wrapped in `try/except Exception`.  The three
closing `_send_event` calls are NOT wrapped: if one raises, `close` propagates
the exception at that point and the remaining steps — including the final
reference reset — never run. -/
def closeFn (refs : MgrRefs) (env : CloseEnv) : CloseOutcome :=
  let a1 :=
    (if refs.brIncomingTask then [CStep.cancelBrTask] else []) ++
    (if refs.userIncomingTask then [CStep.cancelUserTask] else [])
  let a2 := a1 ++ (if refs.audio then [CStep.audioStop] else [])
  if refs.audio && env.timerPending then ⟨a2, true, refs⟩
  else if refs.brStream then
    let a3 := a2 ++ [CStep.sendAudioContentEnd]
    if env.sendContentEndFails then ⟨a3, true, refs⟩
    else
      let a4 := a3 ++ [CStep.sendPromptEnd]
      if env.sendPromptEndFails then ⟨a4, true, refs⟩
      else
        let a5 := a4 ++ [CStep.sendSessionEnd]
        if env.sendSessionEndFails then ⟨a5, true, refs⟩
        else ⟨a5 ++ [CStep.streamClose], false, noRefs⟩
  else ⟨a2, false, noRefs⟩

/-- Timer bookkeeping invariant of the duplexer: every live (created, not yet
cancelled, not yet fired) `_clear_flag_after_playback` task is the one in the
`_current_timer_task` slot — in particular there is at most one. -/
def TimerInv (s : AudioState) : Prop :=
  s.liveTimers.length ≤ 1 ∧
  ∀ t ∈ s.liveTimers, ∃ tm : TimerHandle, s.currentTimer = some tm ∧ tm.id = t

/-! # Theorems -/

/-- The fresh interface satisfies the timer invariant. -/
theorem timerInv_init : TimerInv initAudioState := by
  constructor
  · simp [initAudioState]
  · intro t ht
    simp [initAudioState] at ht

/-- Cancelling the slot timer (the `if self.current_timer_task and not done:
cancel()` step of a playback iteration) empties the live set. -/
theorem liveTimers_after_cancel (s : AudioState) (h : TimerInv s) :
    (match s.currentTimer with
     | some tm => s.liveTimers.erase tm.id
     | none => s.liveTimers) = [] := by
  obtain ⟨hlen, hmem⟩ := h
  cases hc : s.currentTimer with
  | none =>
    cases hl : s.liveTimers with
    | nil => rfl
    | cons a l =>
      obtain ⟨tm, htm, _⟩ := hmem a (by simp [hl])
      rw [hc] at htm
      cases htm
  | some tm =>
    cases hl : s.liveTimers with
    | nil => rfl
    | cons a l =>
      have hla : l = [] := by
        rw [hl] at hlen
        simpa using Nat.le_of_succ_le_succ hlen
      obtain ⟨tm', htm', hid⟩ := hmem a (by simp [hl])
      rw [hc] at htm'
      cases htm'
      subst hla
      subst hid
      simp

/-- Every step of the duplexer preserves the timer invariant. -/
theorem timerInv_step (s s' : AudioState) (hst : AStep s s') (h : TimerInv s) :
    TimerInv s' := by
  cases hst with
  | speak c => exact ⟨h.1, h.2⟩
  | capture f =>
    cases hp : s.isPlayingOutput <;> simp [input_callback, hp] <;> exact ⟨h.1, h.2⟩
  | playNext c rest hq =>
    have hcancel := liveTimers_after_cancel s h
    refine ⟨?_, ?_⟩
    · simp [play_next, hcancel]
    · intro t ht
      simp [play_next, hcancel] at ht
      exact ⟨⟨s.nextTimerId, duration_seconds c⟩, by simp [play_next], ht.symm⟩
  | timerFire tm hc hl =>
    refine ⟨?_, ?_⟩
    · exact le_trans (List.Sublist.length_le (List.erase_sublist tm.id s.liveTimers)) h.1
    · intro t ht
      exact h.2 t (List.mem_of_mem_erase ht)

/-- Every reachable duplexer state satisfies the timer invariant. -/
theorem timerInv_reachable (s : AudioState) (h : AReachable s) : TimerInv s := by
  have h' : Relation.ReflTransGen AStep initAudioState s := h
  clear h
  induction h' with
  | refl => exact timerInv_init
  | tail hab hbc ih => exact timerInv_step _ _ hbc ih

/-- Claim C8: for every output audio chunk of `n` bytes, the estimated playback
duration computed by `_play_output_audio` before scheduling the deferred
suppression clear — `len(audio_data) / (OUTPUT_SAMPLE_RATE * CHANNELS * 2)` —
equals `n / 48000` seconds exactly, and that is exactly the duration handed to
the scheduled `_clear_flag_after_playback` task. -/
theorem duration_formula (s : AudioState) (c : List Nat) (rest : List (List Nat)) :
    duration_seconds c = (c.length : ℚ) / 48000 ∧
    (play_next s c rest).currentTimer = some ⟨s.nextTimerId, (c.length : ℚ) / 48000⟩ := by
  have h : duration_seconds c = (c.length : ℚ) / 48000 := by
    unfold duration_seconds OUTPUT_SAMPLE_RATE CHANNELS
    norm_num
  exact ⟨h, by simp [play_next, h]⟩

/-- Claim C6 (code bug): on an inbound event whose only populated field is
`completion_start`, `BidirectionalStreamEvent.visit` invokes the
completion-start handler AND then falls into the default arm, printing
`Unknown event received` — two actions for one decoded event, because the
`completion_start` check is a standalone `if` preceding the `if/elif/else`
chain instead of being its first arm. -/
theorem visit_completion_start_double_dispatch :
    visit { completion_start := some ⟨"sess", "prompt", "comp"⟩ } =
      [VAct.onCompletionStart ⟨"sess", "prompt", "comp"⟩, VAct.unknownLogged] := rfl

/-- Claim C3 (counterexample): a payload with undecodable bytes is fatal to the
inbound dispatch loop.  With a non-JSON chunk followed by a perfectly valid
usage event, the loop dispatches nothing at all and ends in the function-scope
`except Exception` arm — the subsequent event is never processed — whereas the
same valid event alone is dispatched.  This refutes "logs and skips that
message and continues processing subsequent inbound events". -/
theorem malformed_payload_ends_loop :
    processBrIncoming
        [.chunk .notJson, .chunk (.ok { usage_event := some ⟨"s", "p", "c", none, 1, 2, 3⟩ })] =
      ([], .errorCaught) ∧
    processBrIncoming [.chunk (.ok { usage_event := some ⟨"s", "p", "c", none, 1, 2, 3⟩ })] =
      ([VAct.onUsage ⟨"s", "p", "c", none, 1, 2, 3⟩], .cancelled) :=
  ⟨rfl, rfl⟩

/-- Claim C3 (amended): `None` results, chunks without bytes, unrecognized
output types and JSON without an `event` key are skipped and the loop
continues; an event with no recognized tag is logged (default arm) and the
loop continues; a payload that fails JSON decoding or event validation ends
the loop — with the exception caught and logged at function scope, not raised
to the caller (the loop function always returns normally) — and cancellation
at end of stream ends the loop without error. -/
theorem incoming_loop_skip_and_survive (rest : List RecvItem) :
    processBrIncoming (.noneResult :: rest) = processBrIncoming rest ∧
    processBrIncoming (.chunkNoBytes :: rest) = processBrIncoming rest ∧
    processBrIncoming (.otherOutput :: rest) = processBrIncoming rest ∧
    processBrIncoming (.chunk .noEventKey :: rest) = processBrIncoming rest ∧
    (processBrIncoming (.chunk (.ok {}) :: rest)).1 =
      .unknownLogged :: (processBrIncoming rest).1 ∧
    (processBrIncoming (.chunk (.ok {}) :: rest)).2 = (processBrIncoming rest).2 ∧
    processBrIncoming (.chunk .notJson :: rest) = ([], .errorCaught) ∧
    processBrIncoming (.chunk .badEvent :: rest) = ([], .errorCaught) ∧
    processBrIncoming [] = ([], .cancelled) :=
  ⟨rfl, rfl, rfl, rfl, rfl, rfl, rfl, rfl, rfl⟩

/-- Claim C1: for every materialized tool invocation, `_execute_tool` sends
exactly one three-part result sequence — a `ContentStart` whose tool-result
configuration references the original `tool_use_id`, one `ToolResult` carrying
the payload, and one `ContentEnd`, all on the same content name — whether the
tool succeeds or raises; and an unregistered tool name is an execution failure
(the `KeyError` from `invoke_agent` becomes an error-text payload), not a
protocol error. -/
theorem execute_tool_sends_one_triple
    (agents : List (String × (Option String × PromptTool)))
    (pn name id c cn : String) :
    ∃ payload : String,
      execute_tool agents pn name id c cn =
        [ .contentStart
            { prompt_name := pn
              content_name := cn
              interactive := false
              type := .TOOL
              role := .TOOL
              tool_result_input_configuration := some { tool_use_id := id } },
          .toolResult ⟨pn, cn, .contentWrap payload⟩,
          .contentEnd ⟨pn, cn⟩ ] ∧
      (agents.lookup name = none →
        payload = "Error executing tool \"" ++ name ++ "\": " ++
          pyStr (.keyError ("No agent tool named \"" ++ name ++ "\" was registered"))) := by
  rcases hl : agents.lookup name with _ | ⟨d, f⟩
  · refine ⟨_, ?_, fun _ => rfl⟩
    simp [execute_tool, invoke_agent, hl, send_tool_result]
  · rcases hf : f c with m | r
    · refine ⟨"Error executing tool \"" ++ name ++ "\": " ++ pyStr (.raised m),
        ?_, fun hn => ?_⟩
      · simp [execute_tool, invoke_agent, hl, hf, send_tool_result]
      · simp at hn
    · refine ⟨r, ?_, fun hn => ?_⟩
      · simp [execute_tool, invoke_agent, hl, hf, send_tool_result]
      · simp at hn

/-- Claim C9 (counterexample): after `on_content_end` handles a TOOL
content-end, the pending-invocation slot STILL holds the consumed invocation's
data.  The handler reads the slot and materializes the invocation (it appears
in `_tool_tasks`), but never clears `_tool_name` / `_tool_use_id` /
`_tool_use_content`. -/
theorem slot_retained_after_content_end :
    (on_content_end ⟨"simple_request", "id1", "args", []⟩
        ⟨"s", "p", "c", "cid", .TOOL_USE, .TOOL⟩ "fresh1").tool_tasks =
      [("fresh1", ("simple_request", "id1", "args"))] ∧
    (on_content_end ⟨"simple_request", "id1", "args", []⟩
        ⟨"s", "p", "c", "cid", .TOOL_USE, .TOOL⟩ "fresh1").tool_name = "simple_request" ∧
    (on_content_end ⟨"simple_request", "id1", "args", []⟩
        ⟨"s", "p", "c", "cid", .TOOL_USE, .TOOL⟩ "fresh1").tool_use_id = "id1" ∧
    (on_content_end ⟨"simple_request", "id1", "args", []⟩
        ⟨"s", "p", "c", "cid", .TOOL_USE, .TOOL⟩ "fresh1").tool_use_content = "args" := by
  refine ⟨?_, ?_, ?_, ?_⟩ <;> simp [on_content_end]

/-- Claim C9 (amended): the pending-tool-invocation slot is written only by the
tool-use handler (which overwrites it with the event's name, id and argument
payload), and is read — but NOT cleared — by the content-end handler, which
materializes the invocation from the slot's current values when the ending
content's type is TOOL; the slot keeps the consumed data afterwards. -/
theorem pending_slot_semantics (s : MgrToolState) (e : ContentEndEvent)
    (fresh : String) (ev : ToolUseEvent) :
    (on_content_end s e fresh).tool_name = s.tool_name ∧
    (on_content_end s e fresh).tool_use_id = s.tool_use_id ∧
    (on_content_end s e fresh).tool_use_content = s.tool_use_content ∧
    (e.type = CType.TOOL →
      (on_content_end s e fresh).tool_tasks =
        s.tool_tasks ++ [(fresh, (s.tool_name, s.tool_use_id, s.tool_use_content))]) ∧
    (e.type ≠ CType.TOOL → on_content_end s e fresh = s) ∧
    (on_tool_use s ev).tool_name = ev.tool_name ∧
    (on_tool_use s ev).tool_use_id = ev.tool_use_id ∧
    (on_tool_use s ev).tool_use_content = ev.content ∧
    (on_tool_use s ev).tool_tasks = s.tool_tasks := by
  unfold on_content_end on_tool_use
  by_cases h : e.type = CType.TOOL <;> simp [h]

/-- Witness for the amended C9 at a concrete state and TOOL content-end. -/
theorem pending_slot_semantics_witness :
    (on_content_end ⟨"n", "i", "c", []⟩
        ⟨"s", "p", "cm", "cid", .TOOL_USE, .TOOL⟩ "f1").tool_tasks =
      [("f1", ("n", "i", "c"))] :=
  (pending_slot_semantics ⟨"n", "i", "c", []⟩ ⟨"s", "p", "cm", "cid", .TOOL_USE, .TOOL⟩
    "f1" ⟨"s", "p", "cm", "cid", "ct", "tn", "ti"⟩).2.2.2.1 rfl

/-- Claim C10: a completed (non-raising) call to `close` resets every resource
reference to `None`, and a `close` on an all-`None` manager attempts no
cancellation, no device operation and no send, and returns without error. -/
theorem close_idempotent_after_success (refs : MgrRefs) (env : CloseEnv) :
    ((closeFn refs env).raised = false → (closeFn refs env).refs = noRefs) ∧
    closeFn noRefs env = ⟨[], false, noRefs⟩ := by
  refine ⟨?_, rfl⟩
  intro h
  rcases refs with ⟨b1, b2, b3, b4⟩
  rcases env with ⟨t, f1, f2, f3, f4, f5⟩
  cases b3 <;> cases t <;> cases b4 <;> cases f2 <;> cases f3 <;> cases f4 <;>
    simp_all [closeFn]

/-- Witness for C10: a fully-populated manager whose cleanup succeeds ends with
all references `None`, and closing again performs nothing and does not raise. -/
theorem close_idempotent_after_success_witness :
    (closeFn ⟨true, true, true, true⟩
        ⟨false, false, false, false, false, false⟩).refs = noRefs ∧
    closeFn noRefs ⟨true, true, true, true, true, true⟩ = ⟨[], false, noRefs⟩ :=
  ⟨(close_idempotent_after_success ⟨true, true, true, true⟩
      ⟨false, false, false, false, false, false⟩).1 rfl,
   (close_idempotent_after_success noRefs ⟨true, true, true, true, true, true⟩).2⟩

/-- Claim C7 (counterexample): cleanup is NOT best-effort end to end.  With a
fully-populated manager (no pending clear timer), if sending the audio
`ContentEnd` fails, `close` raises at that point: `sessionEnd` is never
attempted and the remaining steps do not run — the three closing sends are not
wrapped in `try/except`. -/
theorem send_failure_aborts_cleanup :
    (closeFn ⟨true, true, true, true⟩
        ⟨false, false, true, false, false, false⟩).raised = true ∧
    CStep.sendSessionEnd ∉
      (closeFn ⟨true, true, true, true⟩
        ⟨false, false, true, false, false, false⟩).attempted ∧
    CStep.sendAudioContentEnd ∈
      (closeFn ⟨true, true, true, true⟩
        ⟨false, false, true, false, false, false⟩).attempted := by
  refine ⟨rfl, ?_, ?_⟩ <;> decide

/-- Claim C7 (amended): `close()` is best-effort only piecewise, and two
failure modes abort it early.  (1) If no deferred suppression-clear timer is
pending and the three closing sends succeed, then `sessionEnd` is attempted
and `close` returns without raising, regardless of any `Exception`-class
failure while stopping the audio duplexer (in particular a device release
failure) or while closing the stream.  (2) A failure in the `contentEnd` send
propagates: `sessionEnd` is never attempted.  (3) If a deferred
suppression-clear timer is pending when `close` runs, `stop()` re-raises its
`CancelledError`, which escapes the `except Exception` guard: the audio-stop
step is reached but `close` aborts before any closing send, with no send or
device fault at all. -/
theorem cleanup_best_effort_amended (refs : MgrRefs) (env : CloseEnv)
    (hb : refs.brStream = true) :
    ((env.timerPending = false ∧ env.sendContentEndFails = false ∧
      env.sendPromptEndFails = false ∧ env.sendSessionEndFails = false) →
      CStep.sendSessionEnd ∈ (closeFn refs env).attempted ∧
      (closeFn refs env).raised = false) ∧
    ((env.timerPending = false ∧ env.sendContentEndFails = true) →
      (closeFn refs env).raised = true ∧
      CStep.sendSessionEnd ∉ (closeFn refs env).attempted) ∧
    ((refs.audio = true ∧ env.timerPending = true) →
      (closeFn refs env).raised = true ∧
      CStep.audioStop ∈ (closeFn refs env).attempted ∧
      CStep.sendAudioContentEnd ∉ (closeFn refs env).attempted ∧
      CStep.sendSessionEnd ∉ (closeFn refs env).attempted) := by
  rcases refs with ⟨b1, b2, b3, b4⟩
  rcases env with ⟨t, f1, f2, f3, f4, f5⟩
  simp only [] at hb
  subst hb
  refine ⟨?_, ?_, ?_⟩
  · rintro ⟨ht, h1, h2, h3⟩
    simp only [] at ht h1 h2 h3
    subst ht; subst h1; subst h2; subst h3
    cases b1 <;> cases b2 <;> cases b3 <;> simp [closeFn]
  · rintro ⟨ht, h1⟩
    simp only [] at ht h1
    subst ht; subst h1
    cases b1 <;> cases b2 <;> cases b3 <;> simp [closeFn]
  · rintro ⟨ha, ht⟩
    simp only [] at ha ht
    subst ha; subst ht
    cases b1 <;> cases b2 <;> simp [closeFn]

/-- Witness for the amended C7, exercising all three parts: with no pending
timer, `sessionEnd` is attempted even though both the audio stop
(`Exception`-class) and the stream close fail; a failing `contentEnd` send
skips `sessionEnd`; and a pending clear timer aborts `close` before any send. -/
theorem cleanup_best_effort_amended_witness :
    (CStep.sendSessionEnd ∈
      (closeFn ⟨true, true, true, true⟩
        ⟨false, true, false, false, false, true⟩).attempted) ∧
    (CStep.sendSessionEnd ∉
      (closeFn ⟨true, true, true, true⟩
        ⟨false, false, true, false, false, false⟩).attempted) ∧
    (CStep.sendAudioContentEnd ∉
      (closeFn ⟨true, true, true, true⟩
        ⟨true, false, false, false, false, false⟩).attempted) :=
  ⟨((cleanup_best_effort_amended ⟨true, true, true, true⟩
      ⟨false, true, false, false, false, true⟩ rfl).1 ⟨rfl, rfl, rfl, rfl⟩).1,
   ((cleanup_best_effort_amended ⟨true, true, true, true⟩
      ⟨false, false, true, false, false, false⟩ rfl).2.1 ⟨rfl, rfl⟩).2,
   ((cleanup_best_effort_amended ⟨true, true, true, true⟩
      ⟨true, false, false, false, false, false⟩ rfl).2.2 ⟨rfl, rfl⟩).2.2.1⟩

/-- Claim C2 (counterexample): the suppression invariant as stated fails.
There is a reachable duplexer state — a chunk enqueued by `speak` but not yet
dequeued by the playback loop — whose playback queue is non-empty and in which
a frame delivered by the capture callback is forwarded to the input handler
rather than dropped: `_is_playing_output` is only raised when the chunk is
dequeued, not when it is enqueued. -/
theorem capture_forwarded_while_queue_nonempty :
    AReachable (speakFn initAudioState [0, 1]) ∧
    (speakFn initAudioState [0, 1]).outputQ ≠ [] ∧
    (input_callback (speakFn initAudioState [0, 1]) 7).forwarded = [7] := by
  refine ⟨Relation.ReflTransGen.single (AStep.speak _ _), ?_, ?_⟩ <;>
    simp [speakFn, initAudioState, input_callback]

/-- Claim C2 (amended): captured frames are dropped at the duplexer boundary
exactly while the `suppressed` flag (`_is_playing_output`) is true — which
holds from the moment a chunk is dequeued for playback, not from enqueue.
While the flag is true no step forwards any frame to the protocol's input
handler, a delivered frame is dropped without being queued anywhere, and when
the flag is false the frame is forwarded. -/
theorem suppression_flag_gates_capture :
    (∀ s s' : AudioState, AStep s s' → s.isPlayingOutput = true →
      s'.forwarded = s.forwarded) ∧
    (∀ (s : AudioState) (f : Nat),
      (input_callback s f).outputQ = s.outputQ ∧
      (s.isPlayingOutput = true → input_callback s f = s) ∧
      (s.isPlayingOutput = false → (input_callback s f).forwarded = s.forwarded ++ [f])) := by
  constructor
  · intro s s' hst hp
    cases hst with
    | speak c => rfl
    | capture f => simp [input_callback, hp]
    | playNext c rest hq => rfl
    | timerFire tm hc hl => rfl
  · intro s f
    refine ⟨?_, fun hp => ?_, fun hp => ?_⟩
    · cases hp : s.isPlayingOutput <;> simp [input_callback, hp]
    · simp [input_callback, hp]
    · simp [input_callback, hp]

/-- Witness for the amended C2: in a suppressed state a delivered frame leaves
the forwarded list unchanged. -/
theorem suppression_flag_gates_capture_witness :
    (input_callback ⟨[], true, none, [], 0, []⟩ 5).forwarded = [] :=
  suppression_flag_gates_capture.1 ⟨[], true, none, [], 0, []⟩ _
    (AStep.capture ⟨[], true, none, [], 0, []⟩ 5) rfl

/-- Claim C5: the deferred suppression-clear task, when it fires, clears the
suppressed flag if and only if the playback queue is empty at that moment; and
whenever a new chunk is dequeued for playback, the playback iteration cancels
the still-pending clear from an earlier chunk and schedules a fresh one, so
immediately afterwards the newly scheduled task is the only live one — in
every reachable state at most one clear timer is pending. -/
theorem deferred_clear_semantics (s : AudioState) (hr : AReachable s) :
    (∀ t : Nat, s.isPlayingOutput = true →
      ((fire_timer s t).isPlayingOutput = false ↔ s.outputQ = [])) ∧
    s.liveTimers.length ≤ 1 ∧
    (∀ c rest, s.outputQ = c :: rest →
      (play_next s c rest).liveTimers = [s.nextTimerId]) := by
  have hinv := timerInv_reachable s hr
  refine ⟨?_, hinv.1, ?_⟩
  · intro t hp
    cases hq : s.outputQ with
    | nil => simp [fire_timer, hq]
    | cons c rest => simp [fire_timer, hq, hp]
  · intro c rest hq
    have hcancel := liveTimers_after_cancel s hinv
    simp [play_next, hcancel]

/-- Witness for C5: after enqueuing and then dequeuing one chunk, the queue is
empty, and the scheduled clear task firing does clear the flag. -/
theorem deferred_clear_semantics_witness :
    (fire_timer (play_next (speakFn initAudioState [0, 1]) [0, 1] []) 0).isPlayingOutput
      = false :=
  ((deferred_clear_semantics (play_next (speakFn initAudioState [0, 1]) [0, 1] [])
      (Relation.ReflTransGen.tail (Relation.ReflTransGen.single (AStep.speak _ _))
        (AStep.playNext _ [0, 1] [] rfl))).1 0 rfl).mpr rfl

/-- Claim C4: the outbound bootstrap stream is exactly `sessionStart`,
`promptStart` (with output configurations and the tool catalog),
`contentStart` of the SYSTEM TEXT content, `textInput` carrying the system
prompt, `contentEnd` of that SYSTEM content, then `contentStart` of the USER
AUDIO content — strictly in this order, before any `audioInput` event — and
the audio content is never closed in this stream (no `contentEnd` bears the
audio content's name; the matching `contentEnd` is sent only by `close`). -/
theorem bootstrap_event_order (m : SessionCfg) (chunks : List (List Nat))
    (hne : m.content_name ≠ m.audio_content_name) :
    (sessionOutboundEvents m chunks).map tagOf =
      [.sessionStartT, .promptStartT, .contentStartT, .textInputT, .contentEndT,
        .contentStartT] ++ List.replicate chunks.length .audioInputT ∧
    (sessionOutboundEvents m chunks).take 6 =
      [ .sessionStart ⟨{}⟩,
        .promptStart ⟨m.prompt_name, {}, { voice_id := m.voice_name }, {}, ⟨m.tools⟩⟩,
        .contentStart
          { prompt_name := m.prompt_name
            content_name := m.content_name
            type := .TEXT
            role := .SYSTEM
            interactive := true
            text_input_configuration := some {} },
        .textInput ⟨m.prompt_name, m.content_name, m.system_prompt⟩,
        .contentEnd ⟨m.prompt_name, m.content_name⟩,
        .contentStart
          { prompt_name := m.prompt_name
            content_name := m.audio_content_name
            type := .AUDIO_
            interactive := true
            role := .USER
            audio_input_configuration := some {} } ] ∧
    (sessionOutboundEvents m chunks).drop 6 =
      chunks.map (fun d => .audioInput ⟨m.prompt_name, m.audio_content_name, .ofBytes d⟩) ∧
    ∀ p : ContentEndPayload, OutEvent.contentEnd p ∈ sessionOutboundEvents m chunks →
      p.content_name ≠ m.audio_content_name := by
  refine ⟨?_, ?_, ?_, ?_⟩
  · simp [sessionOutboundEvents, initializeEvents, processUserIncomingEvents, tagOf,
      List.map_map]
    induction chunks with
    | nil => rfl
    | cons c cs ih => simpa [List.replicate_succ, tagOf] using ih
  · rfl
  · rfl
  · intro p hp
    simp [sessionOutboundEvents, initializeEvents, processUserIncomingEvents] at hp
    rw [hp]
    exact hne

/-- Witness for C4 at a concrete configuration with one captured chunk. -/
theorem bootstrap_event_order_witness :
    (sessionOutboundEvents ⟨"sys", "matthew", "p", "cn", "acn", []⟩ [[1, 2]]).map tagOf =
      [.sessionStartT, .promptStartT, .contentStartT, .textInputT, .contentEndT,
        .contentStartT, .audioInputT] :=
  (bootstrap_event_order ⟨"sys", "matthew", "p", "cn", "acn", []⟩ [[1, 2]]
    (by decide)).1

end Cosmo
